import Mathlib

/-!
Shallow embedding of the instrument-simulation kernel of `Instrum_sim`
(backend/simulators/*.py, backend/hardware/analog_io.py,
backend/simulation_engine.py) and proofs about the behaviour its
specification claims.

Python floats are modelled as rationals, Python dicts holding the
per-instrument state as records (the keys of every state dict are fixed at
construction), and the `state` dict itself as an association list where a
claim is about the presence of keys.  A linked value
(`get_linked_value`, which returns `None` when the link or key is
missing) is an `Option`; the single call to `random.random() < 0.1`
inside `FlowSimulator.update` is passed in as an explicit boolean oracle.
-/

namespace InstrumSim

/-- A value stored in the `state` dictionary of a simulator. -/
inductive SimValue : Type
  | num (x : ℚ)
  | flag (b : Bool)
  | count (n : ℕ)
  deriving DecidableEq, Repr

/-! ## Flow meter (backend/simulators/flow_simulator.py) -/

/-- Configuration attributes cached by `FlowSimulator._load_config`. -/
structure FlowConfig where
  unit : String
  pulse_type : String
  velocity_ms : ℚ
  noise_enabled : Bool
  noise_dropout_ms : ℚ
  pulses_per_liter : ℚ
  deriving DecidableEq, Repr

/-- Defaults used by `FlowSimulator._load_config` for missing keys. -/
def defaultFlowConfig : FlowConfig :=
  { unit := "L/min", pulse_type := "quadrature", velocity_ms := 1,
    noise_enabled := false, noise_dropout_ms := 10, pulses_per_liter := 100 }

/-- The `state` dictionary of a flow meter. -/
structure FlowState where
  flow_lpm : ℚ
  total_volume_liters : ℚ
  total_mass_kg : ℚ
  pulse_a : Bool
  pulse_b : Bool
  start_enabled : Bool
  reset_cmd : Bool
  noise_cmd : Bool
  pulse_accumulator : ℚ
  pulse_count : ℕ
  deriving DecidableEq, Repr

/-- Initial flow-meter state established by `FlowSimulator._load_config`. -/
def initFlowState : FlowState :=
  { flow_lpm := 0, total_volume_liters := 0, total_mass_kg := 0,
    pulse_a := false, pulse_b := false, start_enabled := false,
    reset_cmd := false, noise_cmd := false,
    pulse_accumulator := 0, pulse_count := 0 }

/-- The pulse-generation block of `FlowSimulator.update` (the branch
taken when pulse_accumulator is at least 1, lines 95-124): at most one
pulse is emitted per call; `drop` is the oracle for
`random.random() < 0.1`. -/
def FlowSimulator.generatePulse (cfg : FlowConfig) (drop : Bool)
    (s : FlowState) : FlowState :=
  if s.pulse_accumulator ≥ 1 then
    let s := { s with pulse_count := s.pulse_count + 1,
                      pulse_accumulator := s.pulse_accumulator - 1 }
    if s.noise_cmd && drop then
      s
    else
      if cfg.pulse_type = "quadrature" then
        let phase := s.pulse_count % 4
        if phase = 0 then { s with pulse_a := true, pulse_b := false }
        else if phase = 1 then { s with pulse_a := true, pulse_b := true }
        else if phase = 2 then { s with pulse_a := false, pulse_b := true }
        else { s with pulse_a := false, pulse_b := false }
      else
        { s with pulse_a := !s.pulse_a, pulse_b := !s.pulse_a }
  else s

/-- The reset block at the end of `FlowSimulator.update` (lines 127-132). -/
def FlowSimulator.applyReset (s : FlowState) : FlowState :=
  if s.reset_cmd then
    { s with total_volume_liters := 0, total_mass_kg := 0,
             pulse_count := 0, pulse_accumulator := 0, reset_cmd := false }
  else s

/-- `FlowSimulator.update(delta_time)`.  `linkedFlow` is the value read
from the linked pump instrument under key flow_lpm; a `none` (missing
link) reads as `0.0` through the Python `or 0.0`. -/
def FlowSimulator.update (cfg : FlowConfig) (linkedFlow : Option ℚ)
    (drop : Bool) (dt : ℚ) (s : FlowState) : FlowState :=
  if !s.start_enabled then s
  else
    let linked_flow := linkedFlow.getD 0
    let s := { s with flow_lpm := linked_flow }
    let flow_lps := if cfg.unit = "L/sec" then linked_flow / 60 else linked_flow / 60
    let delta_volume_liters := flow_lps * dt
    let s := { s with total_volume_liters := s.total_volume_liters + delta_volume_liters }
    let s := { s with total_mass_kg := s.total_volume_liters }
    let delta_pulses := delta_volume_liters * cfg.pulses_per_liter
    let s := { s with pulse_accumulator := s.pulse_accumulator + delta_pulses }
    FlowSimulator.applyReset (FlowSimulator.generatePulse cfg drop s)

/-- The Gray-cycle table of the quadrature branch, indexed by
`pulse_count mod 4`. -/
def grayEntry (n : ℕ) : Bool × Bool :=
  match n % 4 with
  | 0 => (true, false)
  | 1 => (true, true)
  | 2 => (false, true)
  | _ => (false, false)

/-- `FlowSimulator.get_display_data` (the numeric totals it reports;
Python `round(x, 2)` is modelled by `pyRound2`). -/
def pyRoundHalfEven (y : ℚ) : ℤ :=
  let f := ⌊y⌋
  let frac := y - f
  if frac < 1/2 then f
  else if 1/2 < frac then f + 1
  else if f % 2 = 0 then f else f + 1

/-- Python `round(x, 2)` on a rational value. -/
def pyRound2 (x : ℚ) : ℚ := (pyRoundHalfEven (x * 100) : ℚ) / 100

/-- The totals reported by `FlowSimulator.get_display_data`. -/
structure FlowDisplay where
  flow_lpm : ℚ
  total_volume_liters : ℚ
  total_mass_kg : ℚ
  pulse_count : ℕ
  start_enabled : Bool
  deriving DecidableEq, Repr

/-- `FlowSimulator.get_display_data` restricted to its numeric state
fields. -/
def FlowSimulator.get_display_data (s : FlowState) : FlowDisplay :=
  { flow_lpm := pyRound2 s.flow_lpm,
    total_volume_liters := pyRound2 s.total_volume_liters,
    total_mass_kg := pyRound2 s.total_mass_kg,
    pulse_count := s.pulse_count,
    start_enabled := s.start_enabled }

/-! ## Level / tank (backend/simulators/level_simulator.py) -/

/-- Configuration attributes cached by `LevelSimulator._load_config`. -/
structure LevelConfig where
  tank_height_mm : ℚ
  height_100_percent : ℚ
  height_hh_alarm : ℚ
  tank_volume_m3 : ℚ
  deriving DecidableEq, Repr

/-- Derived attribute `self.cross_section_m2` computed at construction. -/
def LevelConfig.cross_section_m2 (cfg : LevelConfig) : ℚ :=
  cfg.tank_volume_m3 / (cfg.tank_height_mm / 1000)

/-- Defaults used by `LevelSimulator._load_config` for missing keys. -/
def defaultLevelConfig : LevelConfig :=
  { tank_height_mm := 2000, height_100_percent := 2000,
    height_hh_alarm := 1800, tank_volume_m3 := 10 }

/-- The `state` dictionary of a level simulator. -/
structure LevelState where
  level_mm : ℚ
  level_percent : ℚ
  volume_m3 : ℚ
  hh_alarm : Bool
  deriving DecidableEq, Repr

/-- Initial level state established by `LevelSimulator._load_config`. -/
def initLevelState : LevelState :=
  { level_mm := 0, level_percent := 0, volume_m3 := 0, hh_alarm := false }

/-- `LevelSimulator.update(delta_time)`.  `linkedFlow` is the value read
from the linked flowmeter instrument under key flow_lpm (`none` when the
link is missing, read as `0.0`). -/
def LevelSimulator.update (cfg : LevelConfig) (linkedFlow : Option ℚ)
    (dt : ℚ) (s : LevelState) : LevelState :=
  let flow_lpm := linkedFlow.getD 0
  let flow_m3_s := flow_lpm / 1000 / 60
  let delta_volume := flow_m3_s * dt
  let new_volume := max 0 (min cfg.tank_volume_m3 (s.volume_m3 + delta_volume))
  let level_m := new_volume / cfg.cross_section_m2
  let level_mm := level_m * 1000
  { volume_m3 := new_volume,
    level_mm := level_mm,
    level_percent := level_mm / cfg.height_100_percent * 100,
    hh_alarm := decide (level_mm ≥ cfg.height_hh_alarm) }

/-! ## On/off valve (backend/simulators/valve_simulator.py) -/

/-- Configuration attributes cached by `ValveSimulator._load_config`. -/
structure ValveConfig where
  open_speed_sec : ℚ
  close_speed_sec : ℚ
  has_hold_solenoid : Bool
  has_return_spring : Bool
  valve_type : String
  deriving DecidableEq, Repr

/-- The `state` dictionary of an on/off valve. -/
structure ValveState where
  position_percent : ℚ
  status : String
  open_cmd : Bool
  close_cmd : Bool
  hold_cmd : Bool
  deriving DecidableEq, Repr

/-- Initial valve state established by `ValveSimulator._load_config`. -/
def initValveState : ValveState :=
  { position_percent := 0, status := "closed",
    open_cmd := false, close_cmd := false, hold_cmd := false }

/-- `ValveSimulator.update(delta_time)`. -/
def ValveSimulator.update (cfg : ValveConfig) (dt : ℚ) (s : ValveState) :
    ValveState :=
  let position := s.position_percent
  if s.hold_cmd && cfg.has_hold_solenoid then
    { s with status := "hold" }
  else if s.open_cmd && !s.close_cmd then
    if position < 100 then
      { s with position_percent := min 100 (position + 100 / cfg.open_speed_sec * dt),
               status := "opening" }
    else
      { s with status := "open" }
  else if s.close_cmd && !s.open_cmd then
    if position > 0 then
      { s with position_percent := max 0 (position - 100 / cfg.close_speed_sec * dt),
               status := "closing" }
    else
      { s with status := "closed" }
  else if cfg.has_return_spring && !s.open_cmd then
    if position > 0 then
      { s with position_percent := max 0 (position - 100 / cfg.close_speed_sec * dt),
               status := "closing" }
    else
      { s with status := "closed" }
  else
    if position ≥ 99 then { s with status := "open" }
    else if position ≤ 1 then { s with status := "closed" }
    else { s with status := "hold" }

/-! ## Pump (backend/simulators/pump_simulator.py) -/

/-- Configuration attributes cached by `PumpSimulator._load_config`. -/
structure PumpConfig where
  control_type : String
  max_pressure_bar : ℚ
  set_pressure_bar : ℚ
  max_flow_lpm : ℚ
  ramp_time_sec : ℚ
  deriving DecidableEq, Repr

/-- Defaults used by `PumpSimulator._load_config` for missing keys. -/
def defaultPumpConfig : PumpConfig :=
  { control_type := "digital", max_pressure_bar := 10, set_pressure_bar := 8,
    max_flow_lpm := 100, ramp_time_sec := 5 }

/-- The `state` dictionary of a pump. -/
structure PumpState where
  running : Bool
  enable_cmd : Bool
  speed_cmd_percent : ℚ
  current_speed_percent : ℚ
  pressure_bar : ℚ
  flow_lpm : ℚ
  fault : Bool
  deriving DecidableEq, Repr

/-- Initial pump state established by `PumpSimulator._load_config`. -/
def initPumpState : PumpState :=
  { running := false, enable_cmd := false, speed_cmd_percent := 0,
    current_speed_percent := 0, pressure_bar := 0, flow_lpm := 0,
    fault := false }

/-- The speed-ramp block of `PumpSimulator.update` (lines 64-77): target
selection from the control type and the enable command, then the ramp
toward the target at 100 / ramp_time_sec per second. -/
def pumpNewSpeed (cfg : PumpConfig) (dt : ℚ) (s : PumpState) : ℚ :=
  let target_speed := if cfg.control_type = "digital" then 100 else s.speed_cmd_percent
  let target_speed := if !s.enable_cmd then 0 else target_speed
  let current_speed := s.current_speed_percent
  let ramp_rate := 100 / cfg.ramp_time_sec * dt
  if current_speed < target_speed then min target_speed (current_speed + ramp_rate)
  else if current_speed > target_speed then max target_speed (current_speed - ramp_rate)
  else current_speed

/-- The pressure computation of `PumpSimulator.update` (lines 83-90),
after the speed ramp. -/
def pumpPressure (cfg : PumpConfig) (backPressure : Option ℚ) (dt : ℚ)
    (s : PumpState) : ℚ :=
  max 0 (min cfg.max_pressure_bar
    (cfg.set_pressure_bar * (pumpNewSpeed cfg dt s / 100) - (backPressure.getD 0) * (1/2)))

/-- `PumpSimulator.update(delta_time)`.  `backPressure` is the value read
from the linked reg_valve instrument under key pressure_bar (`none` when
the link is missing, read as `0.0`). -/
def PumpSimulator.update (cfg : PumpConfig) (backPressure : Option ℚ)
    (dt : ℚ) (s : PumpState) : PumpState :=
  let new_speed := pumpNewSpeed cfg dt s
  let speed_factor := new_speed / 100
  let pressure := pumpPressure cfg backPressure dt s
  let pressure_diff := pressure - backPressure.getD 0
  let flow :=
    if pressure_diff > 0 then
      min cfg.max_flow_lpm
        (pressure_diff / cfg.max_pressure_bar * cfg.max_flow_lpm * speed_factor)
    else 0
  { s with current_speed_percent := new_speed,
           running := decide (new_speed > 1),
           pressure_bar := pressure,
           flow_lpm := flow,
           fault := decide (pressure ≥ cfg.max_pressure_bar) }

/-- `PumpSimulator.read_inputs`.  `enableIn` models the enable_input
digital pin when it is allocated with a pin number; `speedVolt` models the
ADC voltage of the speed_input pin when the pump is analog-controlled and
the address resolves to a driver. -/
def PumpSimulator.read_inputs (cfg : PumpConfig) (enableIn : Option Bool)
    (speedVolt : Option ℚ) (s : PumpState) : PumpState :=
  let s := match enableIn with
    | some b => { s with enable_cmd := b }
    | none => s
  if cfg.control_type = "analog" then
    match speedVolt with
    | some v => { s with speed_cmd_percent := v / 10 * 100 }
    | none => s
  else s

/-! ## Regulating valve (backend/simulators/reg_valve_simulator.py) -/

/-- Configuration attributes cached by `RegValveSimulator._load_config`. -/
structure RegValveConfig where
  valve_type : String
  open_speed_sec : ℚ
  close_speed_sec : ℚ
  min_position_20_pct : Bool
  feedback_type : String
  deriving DecidableEq, Repr

/-- The `state` dictionary of a regulating valve. -/
structure RegValveState where
  position_percent : ℚ
  setpoint_percent : ℚ
  open_cmd : Bool
  hold_cmd : Bool
  at_closed_limit : Bool
  pressure_bar : ℚ
  deriving DecidableEq, Repr

/-- Initial reg-valve state established by
`RegValveSimulator._load_config`. -/
def initRegValveState : RegValveState :=
  { position_percent := 0, setpoint_percent := 0, open_cmd := false,
    hold_cmd := false, at_closed_limit := true, pressure_bar := 0 }

/-- `RegValveSimulator.update(delta_time)`. -/
def RegValveSimulator.update (cfg : RegValveConfig) (dt : ℚ)
    (s : RegValveState) : RegValveState :=
  let target := s.setpoint_percent
  let target := if cfg.min_position_20_pct ∧ target > 0 then max 20 target else target
  if s.hold_cmd then s
  else
    let current_pos := s.position_percent
    let new_pos :=
      if current_pos < target then min target (current_pos + 100 / cfg.open_speed_sec * dt)
      else if current_pos > target then max target (current_pos - 100 / cfg.close_speed_sec * dt)
      else current_pos
    let position_factor := new_pos / 100
    { s with position_percent := new_pos,
             at_closed_limit := decide (new_pos < 5),
             pressure_bar := if position_factor > 0 then 2 * (1 - position_factor) else 10 }

/-- `RegValveSimulator.read_inputs`.  `openIn` and `holdIn` model the
digital command pins; `posVolt` models the ADC voltage of the
position_input pin when its address resolves to a driver. -/
def RegValveSimulator.read_inputs (openIn holdIn : Option Bool)
    (posVolt : Option ℚ) (s : RegValveState) : RegValveState :=
  let s := match openIn with
    | some b => { s with open_cmd := b }
    | none => s
  let s := match holdIn with
    | some b => { s with hold_cmd := b }
    | none => s
  match posVolt with
  | some v => { s with setpoint_percent := max 0 (min 100 (v / 10 * 100)) }
  | none => s

/-! ## Tank-truck interlock (backend/simulators/tankbil_simulator.py) -/

/-- The `state` dictionary of a tankbil simulator. -/
structure TankbilState where
  ground_ok : Bool
  overfill_ok : Bool
  deadman_pressed : Bool
  test_ground_cmd : Bool
  test_overfill_cmd : Bool
  deadman_warning : Bool
  system_safe : Bool
  deadman_timer : ℚ
  deriving DecidableEq, Repr

/-- Initial tankbil state established by
`TankbilSimulator._load_config`. -/
def initTankbilState : TankbilState :=
  { ground_ok := false, overfill_ok := false, deadman_pressed := false,
    test_ground_cmd := false, test_overfill_cmd := false,
    deadman_warning := false, system_safe := false, deadman_timer := 0 }

/-- `TankbilSimulator.update(delta_time)`; `deadman_enabled` is the single
cached configuration attribute. -/
def TankbilSimulator.update (deadman_enabled : Bool) (dt : ℚ)
    (s : TankbilState) : TankbilState :=
  let s :=
    if deadman_enabled then
      let s :=
        if s.deadman_pressed then { s with deadman_timer := 0 }
        else { s with deadman_timer := s.deadman_timer + dt }
      { s with deadman_warning := decide (s.deadman_timer > 2) }
    else
      { s with deadman_warning := false, deadman_timer := 0 }
  let deadman_safe := !deadman_enabled || decide (s.deadman_timer < 5)
  { s with system_safe := s.ground_ok && s.overfill_ok && deadman_safe }

/-! ## DAC driver (backend/hardware/analog_io.py) -/

/-- `DACDriver.set_voltage(voltage, max_voltage)`: the normalized value
written to the underlying MCP4725 (its normalized_value setter). -/
def DACDriver.set_voltage (voltage : ℚ) (max_voltage : ℚ) : ℚ :=
  max 0 (min 1 (voltage / max_voltage))

/-- `DACDriver.set_current_ma(current_ma)`: clamps to the 4-20 mA range,
maps to a 0-3.3 V voltage, and returns the normalized value driven into
the DAC. -/
def DACDriver.set_current_ma (current_ma : ℚ) : ℚ :=
  let c := if current_ma < 4 then (4 : ℚ) else current_ma
  let c := if c > 20 then (20 : ℚ) else c
  let voltage := (c - 4) / 16 * (33/10)
  DACDriver.set_voltage voltage (33/10)

/-! ## The state dictionary seen as a map, and `BaseSimulator.reset`
(backend/simulators/base.py) -/

/-- A simulator state dictionary viewed as an association list (keys are
unique, as in a Python dict). -/
abbrev StateMap : Type := List (String × SimValue)

/-- The level state dictionary as assigned by `LevelSimulator._load_config`
(lines 41-46). -/
def levelLoadedStateMap : StateMap :=
  [("level_mm", SimValue.num 0),
   ("level_percent", SimValue.num 0),
   ("volume_m3", SimValue.num 0),
   ("hh_alarm", SimValue.flag false)]

/-- `BaseSimulator.reset` (base.py lines 135-139): the effect on the state
dictionary is `self.state.clear()`, which empties the map. -/
def BaseSimulator.reset (_s : StateMap) : StateMap := []

/-- `BaseSimulator.set_parameter` (base.py lines 115-121): overwrite the
named entry when the key already exists in the config dictionary,
otherwise log a warning and leave everything unchanged. -/
def BaseSimulator.set_parameter (config : StateMap) (name : String)
    (value : SimValue) : StateMap :=
  if (config.lookup name).isSome then
    config.map (fun kv => if kv.1 = name then (kv.1, value) else kv)
  else config

/-! ## The engine tick loop (backend/simulation_engine.py) -/

/-- The three per-tick phase callbacks of one instrument, acting on a
global state `σ` (the instrument states together with the HAL state).  A
callback either returns normally with the new state or raises; a raise is
modelled as `Except.error` carrying the state at the raise point, since
Python mutations made before an exception persist. -/
structure EnginePhases (σ : Type) where
  read_inputs : σ → Except σ σ
  update : σ → Except σ σ
  write_outputs : σ → Except σ σ

/-- One of the three for-loops inside the try-block of
`SimulationEngine._simulation_loop`: call the phase of every instrument in
order, stopping at the first raise. -/
def SimulationEngine.runAll {σ : Type} (fs : List (σ → Except σ σ)) (s : σ) :
    Except σ σ :=
  match fs with
  | [] => .ok s
  | f :: rest =>
    match f s with
    | .ok s1 => SimulationEngine.runAll rest s1
    | .error s1 => .error s1

/-- The try-block of `_simulation_loop` (lines 128-152): read all inputs,
update all simulators, write all outputs.  Any raise aborts the whole
block. -/
def SimulationEngine.tickBody {σ : Type} (insts : List (EnginePhases σ))
    (s : σ) : Except σ σ :=
  match SimulationEngine.runAll (insts.map (fun i => i.read_inputs)) s with
  | .error s1 => .error s1
  | .ok s1 =>
    match SimulationEngine.runAll (insts.map (fun i => i.update)) s1 with
    | .error s2 => .error s2
    | .ok s2 => SimulationEngine.runAll (insts.map (fun i => i.write_outputs)) s2

/-- One iteration of `_simulation_loop`: the try-block with its except
handler, which logs and falls through.  The boolean is `true` when the
body completed (and the statistics were updated). -/
def SimulationEngine.tick {σ : Type} (insts : List (EnginePhases σ))
    (s : σ) : σ × Bool :=
  match SimulationEngine.tickBody insts s with
  | .ok s1 => (s1, true)
  | .error s1 => (s1, false)

/-- Running `n` consecutive iterations of `_simulation_loop`: the loop
continues with the next tick whether or not the previous body raised. -/
def SimulationEngine.loop {σ : Type} (insts : List (EnginePhases σ))
    (n : ℕ) (s : σ) : σ :=
  match n with
  | 0 => s
  | n + 1 => SimulationEngine.loop insts n (SimulationEngine.tick insts s).1

/-- A concrete two-instrument engine state used to exercise the exception
path: one counter per phase call of instruments A and B. -/
structure TwoInstState where
  rA : ℕ
  uA : ℕ
  wA : ℕ
  rB : ℕ
  uB : ℕ
  wB : ℕ
  deriving DecidableEq, Repr

/-- The all-zero initial two-instrument engine state. -/
def twoInstInit : TwoInstState :=
  { rA := 0, uA := 0, wA := 0, rB := 0, uB := 0, wB := 0 }

/-- Instrument A: every phase succeeds and bumps its counter. -/
def instA : EnginePhases TwoInstState :=
  { read_inputs := fun s => .ok { s with rA := s.rA + 1 },
    update := fun s => .ok { s with uA := s.uA + 1 },
    write_outputs := fun s => .ok { s with wA := s.wA + 1 } }

/-- Instrument B: its `update` raises during the first tick (when A has
been read exactly once) and succeeds afterwards. -/
def instB : EnginePhases TwoInstState :=
  { read_inputs := fun s => .ok { s with rB := s.rB + 1 },
    update := fun s =>
      if s.rA = 1 then .error s else .ok { s with uB := s.uB + 1 },
    write_outputs := fun s => .ok { s with wB := s.wB + 1 } }

/-- A variant of instrument B whose `read_inputs` raises during the first
tick (right after A has been read once) and succeeds afterwards. -/
def instBr : EnginePhases TwoInstState :=
  { read_inputs := fun s =>
      if s.rA = 1 then .error s else .ok { s with rB := s.rB + 1 },
    update := fun s => .ok { s with uB := s.uB + 1 },
    write_outputs := fun s => .ok { s with wB := s.wB + 1 } }

/-- A variant of instrument B whose `write_outputs` raises during the
first tick (right after A has driven its output once) and succeeds
afterwards. -/
def instBw : EnginePhases TwoInstState :=
  { read_inputs := fun s => .ok { s with rB := s.rB + 1 },
    update := fun s => .ok { s with uB := s.uB + 1 },
    write_outputs := fun s =>
      if s.wA = 1 then .error s else .ok { s with wB := s.wB + 1 } }

/-! ## Whole simulators: cached parameters, config dictionary and state
(for the frame property of `set_parameter`) -/

/-- A level simulator instance: the config dictionary, the attributes
cached from it at construction, and the state dictionary. -/
structure LevelSim where
  config : StateMap
  params : LevelConfig
  state : LevelState
  deriving DecidableEq, Repr

/-- `set_parameter` on a level simulator mutates only the config
dictionary (base.py). -/
def LevelSim.set_parameter (sim : LevelSim) (name : String) (v : SimValue) :
    LevelSim :=
  { sim with config := BaseSimulator.set_parameter sim.config name v }

/-- The update phase of a level simulator, which reads only the cached
attributes and the state. -/
def LevelSim.tickUpdate (sim : LevelSim) (linkedFlow : Option ℚ) (dt : ℚ) :
    LevelSim :=
  { sim with state := LevelSimulator.update sim.params linkedFlow dt sim.state }

/-- `LevelSimulator.write_outputs`: the 4-20 mA current sent to the DAC
for the level and the boolean driven on the alarm pin. -/
def LevelSimulator.write_outputs (s : LevelState) : ℚ × Bool :=
  (4 + s.level_percent / 100 * 16, s.hh_alarm)

/-- A pump simulator instance. -/
structure PumpSim where
  config : StateMap
  params : PumpConfig
  state : PumpState
  deriving DecidableEq, Repr

/-- `set_parameter` on a pump simulator mutates only the config
dictionary (base.py). -/
def PumpSim.set_parameter (sim : PumpSim) (name : String) (v : SimValue) :
    PumpSim :=
  { sim with config := BaseSimulator.set_parameter sim.config name v }

/-- The update phase of a pump simulator. -/
def PumpSim.tickUpdate (sim : PumpSim) (backPressure : Option ℚ) (dt : ℚ) :
    PumpSim :=
  { sim with state := PumpSimulator.update sim.params backPressure dt sim.state }

/-- The read phase of a pump simulator. -/
def PumpSim.tickRead (sim : PumpSim) (enableIn : Option Bool)
    (speedVolt : Option ℚ) : PumpSim :=
  { sim with state := PumpSimulator.read_inputs sim.params enableIn speedVolt sim.state }

/-- `PumpSimulator.write_outputs`: the booleans driven on the running and
fault pins and the 4-20 mA feedback current. -/
def PumpSimulator.write_outputs (s : PumpState) : Bool × Bool × ℚ :=
  (s.running, s.fault, 4 + s.current_speed_percent / 100 * 16)

/-- A flow-meter simulator instance. -/
structure FlowSim where
  config : StateMap
  params : FlowConfig
  state : FlowState
  deriving DecidableEq, Repr

/-- `set_parameter` on a flow meter mutates only the config dictionary. -/
def FlowSim.set_parameter (sim : FlowSim) (name : String) (v : SimValue) :
    FlowSim :=
  { sim with config := BaseSimulator.set_parameter sim.config name v }

/-- The update phase of a flow meter. -/
def FlowSim.tickUpdate (sim : FlowSim) (linkedFlow : Option ℚ) (drop : Bool)
    (dt : ℚ) : FlowSim :=
  { sim with state := FlowSimulator.update sim.params linkedFlow drop dt sim.state }

/-- An on/off valve simulator instance. -/
structure ValveSim where
  config : StateMap
  params : ValveConfig
  state : ValveState
  deriving DecidableEq, Repr

/-- `set_parameter` on a valve mutates only the config dictionary. -/
def ValveSim.set_parameter (sim : ValveSim) (name : String) (v : SimValue) :
    ValveSim :=
  { sim with config := BaseSimulator.set_parameter sim.config name v }

/-- The update phase of an on/off valve. -/
def ValveSim.tickUpdate (sim : ValveSim) (dt : ℚ) : ValveSim :=
  { sim with state := ValveSimulator.update sim.params dt sim.state }

/-- A regulating-valve simulator instance. -/
structure RegValveSim where
  config : StateMap
  params : RegValveConfig
  state : RegValveState
  deriving DecidableEq, Repr

/-- `set_parameter` on a reg valve mutates only the config dictionary. -/
def RegValveSim.set_parameter (sim : RegValveSim) (name : String)
    (v : SimValue) : RegValveSim :=
  { sim with config := BaseSimulator.set_parameter sim.config name v }

/-- The update phase of a regulating valve. -/
def RegValveSim.tickUpdate (sim : RegValveSim) (dt : ℚ) : RegValveSim :=
  { sim with state := RegValveSimulator.update sim.params dt sim.state }

/-- A tankbil simulator instance; its single cached attribute is
deadman_enabled. -/
structure TankbilSim where
  config : StateMap
  deadman_enabled : Bool
  state : TankbilState
  deriving DecidableEq, Repr

/-- `set_parameter` on a tankbil simulator mutates only the config
dictionary. -/
def TankbilSim.set_parameter (sim : TankbilSim) (name : String)
    (v : SimValue) : TankbilSim :=
  { sim with config := BaseSimulator.set_parameter sim.config name v }

/-- The update phase of a tankbil simulator. -/
def TankbilSim.tickUpdate (sim : TankbilSim) (dt : ℚ) : TankbilSim :=
  { sim with state := TankbilSimulator.update sim.deadman_enabled dt sim.state }

/-- The initial flow-meter state with pulsing enabled (start_input high). -/
def flowStart60 : FlowState := { initFlowState with start_enabled := true }

/-- A 100 ms tick of the default (quadrature, 100 pulses/L) flow meter fed
a steady 60 L/min from its linked pump: the feed of spec scenario 5 at the
engine default rate of 10 Hz. -/
def flowTick60 (s : FlowState) : FlowState :=
  FlowSimulator.update defaultFlowConfig (some 60) false (1/10) s

/-- A flow meter holding 5 L of accumulated volume with a pending reset
request while pulsing is disabled. -/
def flowIdleReset : FlowState :=
  { initFlowState with
    reset_cmd := true,
    total_volume_liters := 5 }

/-- A running flow meter with accumulated totals and a pending reset
request. -/
def flowRunReset : FlowState :=
  { initFlowState with
    start_enabled := true,
    reset_cmd := true,
    total_volume_liters := 5,
    pulse_count := 7 }

/-- A running flow meter that has emitted exactly one pulse: its pair
(1,1) is the Gray entry of pulse_count 1. -/
def flowGray1 : FlowState :=
  { initFlowState with
    start_enabled := true,
    pulse_count := 1,
    pulse_a := true,
    pulse_b := true,
    pulse_accumulator := 1/2 }

/-- The position-ramp block of `RegValveSimulator.update` (lines 72-81):
move from pos toward target at the configured open or close rate. -/
def rampPosition (cfg : RegValveConfig) (dt pos target : ℚ) : ℚ :=
  if pos < target then min target (pos + 100 / cfg.open_speed_sec * dt)
  else if pos > target then max target (pos - 100 / cfg.close_speed_sec * dt)
  else pos

/-- A regulating valve configured with the 20 percent minimum-position
option enabled. -/
def regValveDemo : RegValveConfig :=
  { valve_type := "LVRA", open_speed_sec := 10, close_speed_sec := 10,
    min_position_20_pct := true, feedback_type := "analog" }

/-- A freshly constructed level simulator instance with one config
entry. -/
def levelSimDemo : LevelSim :=
  { config := [("tank_volume_m3", SimValue.num 10)],
    params := defaultLevelConfig,
    state := initLevelState }

/-- A level configuration whose 100-percent reference height lies below
the physical tank height, so a full tank reads above 100 percent. -/
def badLevelConfig : LevelConfig :=
  { tank_height_mm := 2000, height_100_percent := 1000,
    height_hh_alarm := 1800, tank_volume_m3 := 10 }

/-- A plain on/off valve configuration with 5 s travel times. -/
def demoValveConfig : ValveConfig :=
  { open_speed_sec := 5, close_speed_sec := 5, has_hold_solenoid := false,
    has_return_spring := false, valve_type := "import" }

/-! ## Proof development -/

/-- The reset block is a no-op when no reset request is pending. -/
theorem applyReset_id (s : FlowState) (h : s.reset_cmd = false) :
    FlowSimulator.applyReset s = s := by
  unfold FlowSimulator.applyReset
  rw [h]
  simp

/-- Full description of `FlowSimulator.update` in the quadrature,
non-dropped, no-pending-reset case when the incremented accumulator
reaches 1: exactly one pulse is emitted, the totals grow by the tick
volume, and the pulse pair becomes the Gray entry of the incremented
count. -/
theorem flow_update_quad_emit (cfg : FlowConfig) (lf : Option ℚ) (drop : Bool)
    (dt : ℚ) (s : FlowState)
    (hs : s.start_enabled = true) (hr : s.reset_cmd = false)
    (hq : cfg.pulse_type = "quadrature")
    (hnd : (s.noise_cmd && drop) = false)
    (hacc : s.pulse_accumulator + lf.getD 0 / 60 * dt * cfg.pulses_per_liter ≥ 1) :
    FlowSimulator.update cfg lf drop dt s =
      { s with
        flow_lpm := lf.getD 0,
        total_volume_liters := s.total_volume_liters + lf.getD 0 / 60 * dt,
        total_mass_kg := s.total_volume_liters + lf.getD 0 / 60 * dt,
        pulse_accumulator := s.pulse_accumulator + lf.getD 0 / 60 * dt * cfg.pulses_per_liter - 1,
        pulse_count := s.pulse_count + 1,
        pulse_a := (grayEntry (s.pulse_count + 1)).1,
        pulse_b := (grayEntry (s.pulse_count + 1)).2 } := by
  have hif : (if cfg.unit = "L/sec" then lf.getD 0 / 60 else lf.getD 0 / 60) = lf.getD 0 / 60 := by
    split_ifs <;> rfl
  unfold FlowSimulator.update
  rw [if_neg (show ¬((!s.start_enabled) = true) by rw [hs]; simp)]
  simp only [hif]
  unfold FlowSimulator.generatePulse
  rw [if_pos hacc]
  simp only [hnd, Bool.false_eq_true, if_false]
  rw [if_pos hq]
  have h4 : (s.pulse_count + 1) % 4 = 0 ∨ (s.pulse_count + 1) % 4 = 1 ∨
      (s.pulse_count + 1) % 4 = 2 ∨ (s.pulse_count + 1) % 4 = 3 := by omega
  unfold FlowSimulator.applyReset
  rcases h4 with h4 | h4 | h4 | h4 <;>
    simp [h4, grayEntry, hr]




/-- Closed form of `n+1` ticks of `flowTick60` from the enabled initial
state: each tick emits exactly one pulse and strands 9 pulses in the
accumulator. -/
theorem flowTick60_iter (n : ℕ) :
    flowTick60^[n+1] flowStart60 =
      { flow_lpm := 60,
        total_volume_liters := ((n:ℚ)+1)/10,
        total_mass_kg := ((n:ℚ)+1)/10,
        pulse_a := (grayEntry (n+1)).1,
        pulse_b := (grayEntry (n+1)).2,
        start_enabled := true,
        reset_cmd := false,
        noise_cmd := false,
        pulse_accumulator := 9*((n:ℚ)+1),
        pulse_count := n+1 } := by
  induction n with
  | zero =>
    rw [Function.iterate_one]
    unfold flowTick60
    rw [flow_update_quad_emit _ _ _ _ _ rfl rfl rfl (by rfl)
      (by norm_num [flowStart60, initFlowState, defaultFlowConfig])]
    simp only [FlowState.mk.injEq, Option.getD_some, defaultFlowConfig, flowStart60, initFlowState]
    repeat' constructor
    all_goals first | rfl | norm_num
  | succ n ih =>
    rw [Function.iterate_succ_apply', ih]
    unfold flowTick60
    rw [flow_update_quad_emit _ _ _ _ _ rfl rfl rfl (by rfl) ?hacc]
    case hacc =>
      have h0 : (0:ℚ) ≤ (n:ℚ) := Nat.cast_nonneg n
      dsimp only [defaultFlowConfig]
      norm_num
      nlinarith
    simp only [FlowState.mk.injEq, Option.getD_some, defaultFlowConfig]
    repeat' constructor
    all_goals first | rfl | (push_cast; ring)


/-- Claim C1: the spec states that `update` keeps emitting pulses in a
loop while `pulse_accumulator ≥ 1`, so one tick carrying n ≥ 2 pulses of
volume bumps `pulse_count` by n, and a steady 60 L/min at 100 pulses/L
for 2 s of ticks yields `pulse_count = 200`.  The code uses `if` where
the spec says `while` (flow_simulator.py line 95): a 100 ms tick carrying
10 pulses of volume bumps `pulse_count` by exactly 1 and leaves 9 pulses
stranded in the accumulator, and 2 s of such ticks (20 ticks at the
engine default 10 Hz, exactly 2 L metered) yields `pulse_count = 20`,
not 200. -/
theorem C1_single_pulse_per_update :
    (flowTick60^[1] flowStart60).pulse_count = 1 ∧
    (flowTick60^[1] flowStart60).pulse_accumulator = 9 ∧
    (flowTick60^[20] flowStart60).pulse_count = 20 ∧
    (flowTick60^[20] flowStart60).total_volume_liters = 2 ∧
    (flowTick60^[20] flowStart60).pulse_count ≠ 200 := by
  have h1 := flowTick60_iter 0
  have h20 := flowTick60_iter 19
  rw [show (0:ℕ)+1 = 1 from rfl] at h1
  rw [show (19:ℕ)+1 = 20 from rfl] at h20
  rw [h1, h20]
  refine ⟨rfl, by norm_num, rfl, by norm_num, by norm_num⟩


/-- Claim C5 counterexample: a flow meter whose `reset_cmd` is set but
whose `start_enabled` is clear is left completely untouched by `update` —
the early return on lines 70-71 of flow_simulator.py precedes the reset
handling — so its totals stay nonzero and the reset request is not
cleared, contrary to the claim as stated. -/
theorem C5_counterexample :
    FlowSimulator.update defaultFlowConfig none false (1/10) flowIdleReset = flowIdleReset ∧
    flowIdleReset.total_volume_liters ≠ 0 ∧
    flowIdleReset.reset_cmd = true := by
  refine ⟨?_, by norm_num [flowIdleReset, initFlowState], rfl⟩
  unfold FlowSimulator.update
  rfl

/-- Claim C6 counterexample: the very first emitted pulse moves the
quadrature pair from the initial (0,0) to (1,1) — `pulse_count` is
incremented before indexing the Gray table, so the first emission lands
on entry 1 — flipping both bits simultaneously, contrary to the claim
that no transition ever flips both bits. -/
theorem C6_counterexample :
    ((flowStart60.pulse_a, flowStart60.pulse_b) = (false, false)) ∧
    ((FlowSimulator.update defaultFlowConfig (some 60) false (1/100) flowStart60).pulse_a,
     (FlowSimulator.update defaultFlowConfig (some 60) false (1/100) flowStart60).pulse_b) = (true, true) ∧
    (FlowSimulator.update defaultFlowConfig (some 60) false (1/100) flowStart60).pulse_a ≠ flowStart60.pulse_a ∧
    (FlowSimulator.update defaultFlowConfig (some 60) false (1/100) flowStart60).pulse_b ≠ flowStart60.pulse_b := by
  rw [flow_update_quad_emit _ _ _ _ _ rfl rfl rfl (by rfl)
    (by norm_num [flowStart60, initFlowState, defaultFlowConfig])]
  refine ⟨rfl, ?_, ?_, ?_⟩ <;> simp [flowStart60, initFlowState, grayEntry]

/-- Claim C6 (amended): every non-dropped emitted pulse of a quadrature
flow meter sets (pulse_a, pulse_b) to the Gray-cycle entry indexed by the
incremented `pulse_count mod 4` — (1,0), (1,1), (0,1), (0,0) — and
whenever the previous pair itself is the Gray entry of the current count
(true after any non-dropped emission, false in the initial state), the
transition flips exactly one bit. -/
theorem C6_gray_cycle (cfg : FlowConfig) (flow : ℚ) (drop : Bool) (dt : ℚ) (s : FlowState)
    (hq : cfg.pulse_type = "quadrature") (hs : s.start_enabled = true)
    (hn : s.noise_cmd = false) (hr : s.reset_cmd = false)
    (hacc : s.pulse_accumulator + (some flow).getD 0 / 60 * dt * cfg.pulses_per_liter ≥ 1) :
    (FlowSimulator.update cfg (some flow) drop dt s).pulse_count = s.pulse_count + 1 ∧
    ((FlowSimulator.update cfg (some flow) drop dt s).pulse_a,
     (FlowSimulator.update cfg (some flow) drop dt s).pulse_b) =
      grayEntry (FlowSimulator.update cfg (some flow) drop dt s).pulse_count ∧
    ((s.pulse_a, s.pulse_b) = grayEntry s.pulse_count →
      (((FlowSimulator.update cfg (some flow) drop dt s).pulse_a = s.pulse_a ∧
        (FlowSimulator.update cfg (some flow) drop dt s).pulse_b ≠ s.pulse_b) ∨
       ((FlowSimulator.update cfg (some flow) drop dt s).pulse_a ≠ s.pulse_a ∧
        (FlowSimulator.update cfg (some flow) drop dt s).pulse_b = s.pulse_b))) := by
  rw [flow_update_quad_emit _ _ _ _ _ hs hr hq (by rw [hn]; rfl) hacc]
  refine ⟨rfl, rfl, ?_⟩
  intro hpair
  have hp1 : s.pulse_a = (grayEntry s.pulse_count).1 := by
    rw [← hpair]
  have hp2 : s.pulse_b = (grayEntry s.pulse_count).2 := by
    rw [← hpair]
  dsimp only
  rw [hp1, hp2]
  have h4 : s.pulse_count % 4 = 0 ∨ s.pulse_count % 4 = 1 ∨
      s.pulse_count % 4 = 2 ∨ s.pulse_count % 4 = 3 := by omega
  rcases h4 with h4 | h4 | h4 | h4 <;>
    · have h5 : (s.pulse_count + 1) % 4 = (s.pulse_count % 4 + 1) % 4 := by omega
      rw [grayEntry, grayEntry, h5, h4]
      simp


/-- Pulse generation never touches the reset request. -/
theorem generatePulse_reset_cmd (cfg : FlowConfig) (drop : Bool) (s : FlowState) :
    (FlowSimulator.generatePulse cfg drop s).reset_cmd = s.reset_cmd := by
  unfold FlowSimulator.generatePulse
  dsimp only
  split_ifs <;> rfl

/-- Python round at zero is zero. -/
theorem pyRound2_zero : pyRound2 0 = 0 := by
  unfold pyRound2 pyRoundHalfEven
  norm_num

/-- Claim C5 (amended): when the flow meter is start-enabled and a reset
request is pending at the start of `update`, the update zeroes
`total_volume_liters`, `total_mass_kg`, `pulse_count` and
`pulse_accumulator`, clears `reset_cmd`, and a subsequent
`get_display_data` snapshot reports zero totals.  (The original claim
omitted the start-enabled condition; see the counterexample.) -/
theorem C5_reset_zeroes_totals (cfg : FlowConfig) (lf : Option ℚ)
    (drop : Bool) (dt : ℚ) (s : FlowState)
    (hstart : s.start_enabled = true) (hreset : s.reset_cmd = true) :
    (FlowSimulator.update cfg lf drop dt s).total_volume_liters = 0 ∧
    (FlowSimulator.update cfg lf drop dt s).total_mass_kg = 0 ∧
    (FlowSimulator.update cfg lf drop dt s).pulse_count = 0 ∧
    (FlowSimulator.update cfg lf drop dt s).pulse_accumulator = 0 ∧
    (FlowSimulator.update cfg lf drop dt s).reset_cmd = false ∧
    (FlowSimulator.get_display_data
      (FlowSimulator.update cfg lf drop dt s)).total_volume_liters = 0 ∧
    (FlowSimulator.get_display_data
      (FlowSimulator.update cfg lf drop dt s)).total_mass_kg = 0 ∧
    (FlowSimulator.get_display_data
      (FlowSimulator.update cfg lf drop dt s)).pulse_count = 0 := by
  unfold FlowSimulator.update
  rw [if_neg (show ¬((!s.start_enabled) = true) by rw [hstart]; simp)]
  unfold FlowSimulator.applyReset
  simp [generatePulse_reset_cmd, hreset, FlowSimulator.get_display_data, pyRound2_zero]


/-- Claim C5 witness: the amended reset behaviour at a concrete
running flow meter with nonzero totals. -/
theorem C5_reset_zeroes_totals_witness :
    flowRunReset.start_enabled = true ∧ flowRunReset.reset_cmd = true ∧
    (FlowSimulator.update defaultFlowConfig (some 60) false (1/10) flowRunReset).total_volume_liters = 0 ∧
    (FlowSimulator.update defaultFlowConfig (some 60) false (1/10) flowRunReset).reset_cmd = false :=
  ⟨rfl, rfl,
    (C5_reset_zeroes_totals defaultFlowConfig (some 60) false (1/10) flowRunReset rfl rfl).1,
    (C5_reset_zeroes_totals defaultFlowConfig (some 60) false (1/10) flowRunReset rfl rfl).2.2.2.2.1⟩


/-- Claim C6 witness: the second pulse of a quadrature flow meter moves
the pair from (1,1) to (0,1), one bit flip, matching the Gray table. -/
theorem C6_gray_cycle_witness :
    defaultFlowConfig.pulse_type = "quadrature" ∧
    (flowGray1.pulse_a, flowGray1.pulse_b) = grayEntry flowGray1.pulse_count ∧
    (FlowSimulator.update defaultFlowConfig (some 60) false (1/100) flowGray1).pulse_count = 2 ∧
    ((FlowSimulator.update defaultFlowConfig (some 60) false (1/100) flowGray1).pulse_a,
     (FlowSimulator.update defaultFlowConfig (some 60) false (1/100) flowGray1).pulse_b) =
      grayEntry 2 ∧
    (((FlowSimulator.update defaultFlowConfig (some 60) false (1/100) flowGray1).pulse_a = flowGray1.pulse_a ∧
      (FlowSimulator.update defaultFlowConfig (some 60) false (1/100) flowGray1).pulse_b ≠ flowGray1.pulse_b) ∨
     ((FlowSimulator.update defaultFlowConfig (some 60) false (1/100) flowGray1).pulse_a ≠ flowGray1.pulse_a ∧
      (FlowSimulator.update defaultFlowConfig (some 60) false (1/100) flowGray1).pulse_b = flowGray1.pulse_b)) := by
  have h := C6_gray_cycle defaultFlowConfig 60 false (1/100) flowGray1 rfl rfl rfl rfl
    (by norm_num [flowGray1, initFlowState, defaultFlowConfig])
  refine ⟨rfl, by rfl, ?_, ?_, h.2.2 (by rfl)⟩
  · rw [h.1]
    rfl
  · rw [h.2.1, h.1]
    rfl


/-- Claim C3: `BaseSimulator.reset` is `self.state.clear()` — it empties
the state dictionary instead of restoring the documented initial values,
so immediately after an explicit reset none of the documented state keys
of a level instrument is present, although construction put all of them
in place with their initial values.  This contradicts both the spec and
the method docstring (reset to initial state). -/
theorem C3_reset_empties_state :
    BaseSimulator.reset levelLoadedStateMap = [] ∧
    (BaseSimulator.reset levelLoadedStateMap).lookup "level_mm" = none ∧
    (BaseSimulator.reset levelLoadedStateMap).lookup "level_percent" = none ∧
    (BaseSimulator.reset levelLoadedStateMap).lookup "volume_m3" = none ∧
    (BaseSimulator.reset levelLoadedStateMap).lookup "hh_alarm" = none ∧
    levelLoadedStateMap.lookup "level_mm" = some (SimValue.num 0) ∧
    levelLoadedStateMap.lookup "level_percent" = some (SimValue.num 0) ∧
    levelLoadedStateMap.lookup "volume_m3" = some (SimValue.num 0) ∧
    levelLoadedStateMap.lookup "hh_alarm" = some (SimValue.flag false) := by
  refine ⟨rfl, rfl, rfl, rfl, rfl, ?_, ?_, ?_, ?_⟩ <;> rfl

/-- Running a phase over a concatenation of instrument lists runs the
first list and, if no instrument raised, continues with the second. -/
theorem runAll_append {σ : Type} (l1 l2 : List (σ → Except σ σ)) (s : σ) :
    SimulationEngine.runAll (l1 ++ l2) s =
      match SimulationEngine.runAll l1 s with
      | .ok s1 => SimulationEngine.runAll l2 s1
      | .error s1 => .error s1 := by
  induction l1 generalizing s with
  | nil => rfl
  | cons f rest ih =>
    dsimp only [List.cons_append, SimulationEngine.runAll]
    cases f s with
    | ok s1 => exact ih s1
    | error s1 => rfl

/-- Running a phase over a list whose element at some position raises,
when everything before it succeeded, stops at that element and returns
the state at the raise point. -/
theorem runAll_error_at {σ : Type} (fs1 fs2 : List (σ → Except σ σ))
    (f : σ → Except σ σ) (s s1 s2 : σ)
    (hpre : SimulationEngine.runAll fs1 s = .ok s1) (hf : f s1 = .error s2) :
    SimulationEngine.runAll (fs1 ++ f :: fs2) s = .error s2 := by
  rw [runAll_append, hpre]
  dsimp only [SimulationEngine.runAll]
  rw [hf]

/-- Claim C4 (amended): a raise in any phase of any instrument is caught
at the boundary of the whole tick body, not per instrument: nothing
propagates, the loop continues with the next tick, and every phase call
after the failing one in that tick — including the phases of other
instruments and the statistics update — is skipped.  The resulting state
is exactly the state at the raise point, so no output is written after
the failure: a raise during the read or update phase leaves every output
of that tick unwritten (all outputs retain their previous values), while
a raise during the write phase leaves the outputs already driven by
instruments earlier in the write loop in place and only the remaining
outputs retain their previous values.  (The original claim that every
other instrument still runs its three phases within the same tick is
refuted by the counterexample, and the log line carries no instrument
id.) -/
theorem C4_engine_fault_isolation {σ : Type} :
    (∀ (insts1 insts2 : List (EnginePhases σ)) (bad : EnginePhases σ)
        (s s1 s2 : σ) (n : ℕ),
      SimulationEngine.runAll (insts1.map (fun i => i.read_inputs)) s = .ok s1 →
      bad.read_inputs s1 = .error s2 →
      SimulationEngine.tick (insts1 ++ bad :: insts2) s = (s2, false) ∧
      SimulationEngine.loop (insts1 ++ bad :: insts2) (n+1) s =
        SimulationEngine.loop (insts1 ++ bad :: insts2) n s2) ∧
    (∀ (insts1 insts2 : List (EnginePhases σ)) (bad : EnginePhases σ)
        (s s1 s2 s3 : σ) (n : ℕ),
      SimulationEngine.runAll
        ((insts1 ++ bad :: insts2).map (fun i => i.read_inputs)) s = .ok s1 →
      SimulationEngine.runAll (insts1.map (fun i => i.update)) s1 = .ok s2 →
      bad.update s2 = .error s3 →
      SimulationEngine.tick (insts1 ++ bad :: insts2) s = (s3, false) ∧
      SimulationEngine.loop (insts1 ++ bad :: insts2) (n+1) s =
        SimulationEngine.loop (insts1 ++ bad :: insts2) n s3) ∧
    (∀ (insts1 insts2 : List (EnginePhases σ)) (bad : EnginePhases σ)
        (s s1 s2 s3 s4 : σ) (n : ℕ),
      SimulationEngine.runAll
        ((insts1 ++ bad :: insts2).map (fun i => i.read_inputs)) s = .ok s1 →
      SimulationEngine.runAll
        ((insts1 ++ bad :: insts2).map (fun i => i.update)) s1 = .ok s2 →
      SimulationEngine.runAll (insts1.map (fun i => i.write_outputs)) s2 = .ok s3 →
      bad.write_outputs s3 = .error s4 →
      SimulationEngine.tick (insts1 ++ bad :: insts2) s = (s4, false) ∧
      SimulationEngine.loop (insts1 ++ bad :: insts2) (n+1) s =
        SimulationEngine.loop (insts1 ++ bad :: insts2) n s4) := by
  refine ⟨?_, ?_, ?_⟩
  · intro insts1 insts2 bad s s1 s2 n hpre hbad
    have herr : SimulationEngine.runAll
        ((insts1 ++ bad :: insts2).map (fun i => i.read_inputs)) s = .error s2 := by
      rw [List.map_append, List.map_cons]
      exact runAll_error_at _ _ _ _ _ _ hpre hbad
    have htick : SimulationEngine.tick (insts1 ++ bad :: insts2) s = (s2, false) := by
      unfold SimulationEngine.tick SimulationEngine.tickBody
      rw [herr]
    refine ⟨htick, ?_⟩
    have hstep : SimulationEngine.loop (insts1 ++ bad :: insts2) (n+1) s =
        SimulationEngine.loop (insts1 ++ bad :: insts2) n
          (SimulationEngine.tick (insts1 ++ bad :: insts2) s).1 := rfl
    rw [hstep, htick]
  · intro insts1 insts2 bad s s1 s2 s3 n hread hpre hbad
    have herr : SimulationEngine.runAll
        ((insts1 ++ bad :: insts2).map (fun i => i.update)) s1 = .error s3 := by
      rw [List.map_append, List.map_cons]
      exact runAll_error_at _ _ _ _ _ _ hpre hbad
    have htick : SimulationEngine.tick (insts1 ++ bad :: insts2) s = (s3, false) := by
      unfold SimulationEngine.tick SimulationEngine.tickBody
      rw [hread]
      dsimp only
      rw [herr]
    refine ⟨htick, ?_⟩
    have hstep : SimulationEngine.loop (insts1 ++ bad :: insts2) (n+1) s =
        SimulationEngine.loop (insts1 ++ bad :: insts2) n
          (SimulationEngine.tick (insts1 ++ bad :: insts2) s).1 := rfl
    rw [hstep, htick]
  · intro insts1 insts2 bad s s1 s2 s3 s4 n hread hupd hpre hbad
    have herr : SimulationEngine.runAll
        ((insts1 ++ bad :: insts2).map (fun i => i.write_outputs)) s2 = .error s4 := by
      rw [List.map_append, List.map_cons]
      exact runAll_error_at _ _ _ _ _ _ hpre hbad
    have htick : SimulationEngine.tick (insts1 ++ bad :: insts2) s = (s4, false) := by
      unfold SimulationEngine.tick SimulationEngine.tickBody
      rw [hread]
      dsimp only
      rw [hupd]
      dsimp only
      rw [herr]
    refine ⟨htick, ?_⟩
    have hstep : SimulationEngine.loop (insts1 ++ bad :: insts2) (n+1) s =
        SimulationEngine.loop (insts1 ++ bad :: insts2) n
          (SimulationEngine.tick (insts1 ++ bad :: insts2) s).1 := rfl
    rw [hstep, htick]

/-- Claim C4 counterexample: with two instruments A and B where the
update of B raises on the first tick, the write phase of A does not run
in that tick (its write counter stays 0), contrary to the claim that
every other instrument still executes its three phases; the loop does
continue, and the next tick runs all phases of both instruments. -/
theorem C4_counterexample :
    SimulationEngine.tick [instA, instB] twoInstInit =
      ({ rA := 1, uA := 1, wA := 0, rB := 1, uB := 0, wB := 0 }, false) ∧
    (SimulationEngine.tick [instA, instB] twoInstInit).1.wA ≠ 1 ∧
    SimulationEngine.loop [instA, instB] 2 twoInstInit =
      { rA := 2, uA := 2, wA := 1, rB := 2, uB := 1, wB := 1 } := by
  decide

/-- Claim C4 witness: the fault-isolation behaviour at concrete
two-instrument engines with the failing call in each of the three
phases.  A read raise leaves the whole tick unwritten, an update raise
skips the remaining updates and all writes, and a write raise leaves the
output of the instrument earlier in the write loop already driven (its
write counter is 1) while the remaining writes are skipped; in every
case the tick returns normally and the loop proceeds to the next tick. -/
theorem C4_engine_fault_isolation_witness :
    SimulationEngine.tick [instA, instBr] twoInstInit =
      ({ rA := 1, uA := 0, wA := 0, rB := 0, uB := 0, wB := 0 }, false) ∧
    SimulationEngine.tick [instA, instB] twoInstInit =
      ({ rA := 1, uA := 1, wA := 0, rB := 1, uB := 0, wB := 0 }, false) ∧
    SimulationEngine.tick [instA, instBw] twoInstInit =
      ({ rA := 1, uA := 1, wA := 1, rB := 1, uB := 1, wB := 0 }, false) ∧
    SimulationEngine.loop [instA, instB] 1 twoInstInit =
      { rA := 1, uA := 1, wA := 0, rB := 1, uB := 0, wB := 0 } := by
  have hr := C4_engine_fault_isolation.1 [instA] [] instBr twoInstInit
    { rA := 1, uA := 0, wA := 0, rB := 0, uB := 0, wB := 0 }
    { rA := 1, uA := 0, wA := 0, rB := 0, uB := 0, wB := 0 } 0 (by rfl) (by rfl)
  have hu := C4_engine_fault_isolation.2.1 [instA] [] instB twoInstInit
    { rA := 1, uA := 0, wA := 0, rB := 1, uB := 0, wB := 0 }
    { rA := 1, uA := 1, wA := 0, rB := 1, uB := 0, wB := 0 }
    { rA := 1, uA := 1, wA := 0, rB := 1, uB := 0, wB := 0 } 0 (by rfl) (by rfl) (by rfl)
  have hw := C4_engine_fault_isolation.2.2 [instA] [] instBw twoInstInit
    { rA := 1, uA := 0, wA := 0, rB := 1, uB := 0, wB := 0 }
    { rA := 1, uA := 1, wA := 0, rB := 1, uB := 1, wB := 0 }
    { rA := 1, uA := 1, wA := 1, rB := 1, uB := 1, wB := 0 }
    { rA := 1, uA := 1, wA := 1, rB := 1, uB := 1, wB := 0 } 0 (by rfl) (by rfl) (by rfl) (by rfl)
  exact ⟨hr.1, hu.1, hw.1, hu.2⟩


/-- The normalized value driven into the DAC equals the clamped current
mapped affinely onto the unit interval. -/
theorem dac_formula (c : ℚ) :
    DACDriver.set_current_ma c = (max 4 (min 20 c) - 4) / 16 := by
  have hdiv : ∀ y : ℚ, y * (33/10) / (33/10) = y := fun y => by field_simp
  unfold DACDriver.set_current_ma DACDriver.set_voltage
  dsimp only
  split_ifs with h1 h2 h2
  · exact absurd h2 (by norm_num)
  · rw [hdiv, min_eq_right (show c ≤ 20 by linarith), max_eq_left (show c ≤ 4 by linarith)]
    norm_num
  · rw [hdiv, min_eq_left (show (20:ℚ) ≤ c by linarith),
      max_eq_right (show (4:ℚ) ≤ 20 by norm_num)]
    norm_num
  · rw [hdiv]
    have hc4 : (4:ℚ) ≤ c := by linarith
    have hc20 : c ≤ 20 := by linarith
    rw [min_eq_right (show (c-4)/16 ≤ 1 by rw [div_le_one (show (0:ℚ) < 16 by norm_num)]; linarith),
      max_eq_right (div_nonneg (by linarith) (by norm_num : (0:ℚ) ≤ 16)),
      min_eq_right hc20, max_eq_right hc4]

/-- Claim C7: `DACDriver.set_current_ma` clamps its input to
[4.0, 20.0] mA and drives the DAC with the normalized value
(clamp(c) - 4) / 16, i.e. the voltage ((clamp(c) - 4) / 16) x 3.3
relative to the 3.3 V reference; any input outside [4, 20] produces
exactly the output of the nearest bound. -/
theorem C7_dac_clamp (c : ℚ) :
    DACDriver.set_current_ma c = (max 4 (min 20 c) - 4) / 16 ∧
    DACDriver.set_current_ma c * (33/10) = ((max 4 (min 20 c) - 4) / 16) * (33/10) ∧
    (c < 4 → DACDriver.set_current_ma c = DACDriver.set_current_ma 4) ∧
    (20 < c → DACDriver.set_current_ma c = DACDriver.set_current_ma 20) := by
  refine ⟨dac_formula c, by rw [dac_formula c], ?_, ?_⟩
  · intro h
    rw [dac_formula c, dac_formula 4]
    rw [min_eq_right (by linarith), max_eq_left (by linarith)]
    norm_num
  · intro h
    rw [dac_formula c, dac_formula 20]
    rw [min_eq_left (by linarith), max_eq_right (by norm_num)]
    norm_num

/-- Claim C7 witness: concrete out-of-range currents drive the DAC
exactly as the nearest bound does. -/
theorem C7_dac_clamp_witness :
    ((1:ℚ) < 4 ∧ DACDriver.set_current_ma 1 = DACDriver.set_current_ma 4) ∧
    ((25:ℚ) > 20 ∧ DACDriver.set_current_ma 25 = DACDriver.set_current_ma 20) ∧
    DACDriver.set_current_ma 12 = (max 4 (min 20 (12:ℚ)) - 4) / 16 :=
  ⟨⟨by norm_num, (C7_dac_clamp 1).2.2.1 (by norm_num)⟩,
   ⟨by norm_num, (C7_dac_clamp 25).2.2.2 (by norm_num)⟩,
   (C7_dac_clamp 12).1⟩


/-- Claim C9: for a regulating valve with min_position_20_pct enabled
and not holding, `update` ramps the position toward max(20, setpoint)
exactly when the raw setpoint is strictly positive, and toward the raw
setpoint itself otherwise, so a raw setpoint of 0 permits closing fully
to 0. -/
theorem C9_min_position_effective_target (cfg : RegValveConfig) (dt : ℚ)
    (s : RegValveState)
    (hmin : cfg.min_position_20_pct = true) (hhold : s.hold_cmd = false) :
    (0 < s.setpoint_percent →
      (RegValveSimulator.update cfg dt s).position_percent =
        rampPosition cfg dt s.position_percent (max 20 s.setpoint_percent)) ∧
    (¬ 0 < s.setpoint_percent →
      (RegValveSimulator.update cfg dt s).position_percent =
        rampPosition cfg dt s.position_percent s.setpoint_percent) := by
  unfold RegValveSimulator.update rampPosition
  dsimp only
  constructor
  · intro hsp
    rw [if_pos (show cfg.min_position_20_pct = true ∧ s.setpoint_percent > 0 from ⟨hmin, hsp⟩)]
    rw [if_neg (show ¬(s.hold_cmd = true) by rw [hhold]; simp)]
  · intro hsp
    rw [if_neg (show ¬(cfg.min_position_20_pct = true ∧ s.setpoint_percent > 0) from
      fun hc => hsp hc.2)]
    rw [if_neg (show ¬(s.hold_cmd = true) by rw [hhold]; simp)]


/-- Claim C9 witness: with the 20 percent option enabled, a setpoint of
5 ramps toward max(20, 5) = 20 while a setpoint of 0 ramps toward 0. -/
theorem C9_min_position_effective_target_witness :
    regValveDemo.min_position_20_pct = true ∧
    (0:ℚ) < 5 ∧
    (RegValveSimulator.update regValveDemo 1 { initRegValveState with setpoint_percent := 5 }).position_percent =
      rampPosition regValveDemo 1 0 (max 20 5) ∧
    ¬ (0:ℚ) < 0 ∧
    (RegValveSimulator.update regValveDemo 1 initRegValveState).position_percent =
      rampPosition regValveDemo 1 0 0 :=
  ⟨rfl, by norm_num,
    (C9_min_position_effective_target regValveDemo 1
      { initRegValveState with setpoint_percent := 5 } rfl rfl).1 (by norm_num [initRegValveState]),
    by norm_num,
    (C9_min_position_effective_target regValveDemo 1 initRegValveState rfl rfl).2
      (by norm_num [initRegValveState])⟩

/-- Replacing the value stored under one key leaves the lookup of every
other key unchanged. -/
theorem lookup_map_replace (l : StateMap) (n k : String) (v : SimValue)
    (h : k ≠ n) :
    (l.map (fun kv => if kv.1 = n then (kv.1, v) else kv)).lookup k = l.lookup k := by
  induction l with
  | nil => rfl
  | cons kv rest ih =>
    obtain ⟨a, b⟩ := kv
    dsimp only [List.map]
    by_cases hk : a = n
    · rw [if_pos hk]
      have hbeq : (k == a) = false := by
        rw [beq_eq_false_iff_ne, hk]
        exact h
      simp only [List.lookup, hbeq]
      exact ih
    · rw [if_neg hk]
      simp only [List.lookup]
      cases hbeq : k == a
      · exact ih
      · rfl

/-- Claim C10: `set_parameter` mutates at most the named entry of the
config dictionary — other keys are untouched and an unknown name leaves
the dictionary unchanged — and never the state or the cached parameter
attributes; since the tick phases of every simulator type read only the
cached attributes and the state, a set_parameter call has no effect on
the state produced by any subsequent tick phase. -/
theorem C10_set_parameter_frame :
    (∀ (config : StateMap) (n k : String) (v : SimValue), k ≠ n →
      (BaseSimulator.set_parameter config n v).lookup k = config.lookup k) ∧
    (∀ (config : StateMap) (n : String) (v : SimValue),
      (config.lookup n).isSome = false →
      BaseSimulator.set_parameter config n v = config) ∧
    (∀ (sim : LevelSim) (n : String) (v : SimValue) (lf : Option ℚ) (dt : ℚ),
      (sim.set_parameter n v).state = sim.state ∧
      (sim.set_parameter n v).params = sim.params ∧
      ((sim.set_parameter n v).tickUpdate lf dt).state = (sim.tickUpdate lf dt).state ∧
      LevelSimulator.write_outputs (sim.set_parameter n v).state =
        LevelSimulator.write_outputs sim.state) ∧
    (∀ (sim : PumpSim) (n : String) (v : SimValue) (enableIn : Option Bool)
        (speedVolt : Option ℚ) (bp : Option ℚ) (dt : ℚ),
      (sim.set_parameter n v).state = sim.state ∧
      (sim.set_parameter n v).params = sim.params ∧
      ((sim.set_parameter n v).tickRead enableIn speedVolt).state =
        (sim.tickRead enableIn speedVolt).state ∧
      ((sim.set_parameter n v).tickUpdate bp dt).state = (sim.tickUpdate bp dt).state ∧
      PumpSimulator.write_outputs (sim.set_parameter n v).state =
        PumpSimulator.write_outputs sim.state) ∧
    (∀ (sim : FlowSim) (n : String) (v : SimValue) (lf : Option ℚ) (drop : Bool) (dt : ℚ),
      (sim.set_parameter n v).state = sim.state ∧
      (sim.set_parameter n v).params = sim.params ∧
      ((sim.set_parameter n v).tickUpdate lf drop dt).state = (sim.tickUpdate lf drop dt).state) ∧
    (∀ (sim : ValveSim) (n : String) (v : SimValue) (dt : ℚ),
      (sim.set_parameter n v).state = sim.state ∧
      (sim.set_parameter n v).params = sim.params ∧
      ((sim.set_parameter n v).tickUpdate dt).state = (sim.tickUpdate dt).state) ∧
    (∀ (sim : RegValveSim) (n : String) (v : SimValue) (dt : ℚ),
      (sim.set_parameter n v).state = sim.state ∧
      (sim.set_parameter n v).params = sim.params ∧
      ((sim.set_parameter n v).tickUpdate dt).state = (sim.tickUpdate dt).state) ∧
    (∀ (sim : TankbilSim) (n : String) (v : SimValue) (dt : ℚ),
      (sim.set_parameter n v).state = sim.state ∧
      (sim.set_parameter n v).deadman_enabled = sim.deadman_enabled ∧
      ((sim.set_parameter n v).tickUpdate dt).state = (sim.tickUpdate dt).state) := by
  refine ⟨?_, ?_, ?_, ?_, ?_, ?_, ?_, ?_⟩
  · intro config n k v h
    unfold BaseSimulator.set_parameter
    split_ifs with hc
    · exact lookup_map_replace config n k v h
    · rfl
  · intro config n v h
    unfold BaseSimulator.set_parameter
    rw [if_neg (by rw [h]; simp)]
  · exact fun sim n v lf dt => ⟨rfl, rfl, rfl, rfl⟩
  · exact fun sim n v enableIn speedVolt bp dt => ⟨rfl, rfl, rfl, rfl, rfl⟩
  · exact fun sim n v lf drop dt => ⟨rfl, rfl, rfl⟩
  · exact fun sim n v dt => ⟨rfl, rfl, rfl⟩
  · exact fun sim n v dt => ⟨rfl, rfl, rfl⟩
  · exact fun sim n v dt => ⟨rfl, rfl, rfl⟩


/-- Claim C10 witness: mutating tank_volume_m3 on a concrete level
simulator leaves other config keys and the state of the next update
unchanged, and an unknown name is ignored. -/
theorem C10_set_parameter_frame_witness :
    ("other" : String) ≠ "tank_volume_m3" ∧
    (BaseSimulator.set_parameter levelSimDemo.config "tank_volume_m3"
        (SimValue.num 25)).lookup "other" = levelSimDemo.config.lookup "other" ∧
    ((levelSimDemo.set_parameter "tank_volume_m3" (SimValue.num 25)).tickUpdate (some 60) (1/10)).state =
      (levelSimDemo.tickUpdate (some 60) (1/10)).state ∧
    (levelSimDemo.config.lookup "missing").isSome = false ∧
    BaseSimulator.set_parameter levelSimDemo.config "missing" (SimValue.num 1) =
      levelSimDemo.config :=
  ⟨by decide,
    C10_set_parameter_frame.1 levelSimDemo.config "tank_volume_m3" "other" (SimValue.num 25) (by decide),
    (C10_set_parameter_frame.2.2.1 levelSimDemo "tank_volume_m3" (SimValue.num 25) (some 60) (1/10)).2.2.1,
    by decide,
    C10_set_parameter_frame.2.1 levelSimDemo.config "missing" (SimValue.num 1) (by decide)⟩


/-- The ramped pump speed stays nonnegative. -/
theorem pumpNewSpeed_nonneg (cfg : PumpConfig) (dt : ℚ) (s : PumpState)
    (hdt : 0 ≤ dt) (hrt : 0 < cfg.ramp_time_sec)
    (hcur : 0 ≤ s.current_speed_percent) (hcmd : 0 ≤ s.speed_cmd_percent) :
    0 ≤ pumpNewSpeed cfg dt s := by
  have hrr : 0 ≤ 100 / cfg.ramp_time_sec * dt :=
    mul_nonneg (div_nonneg (by norm_num) hrt.le) hdt
  unfold pumpNewSpeed
  dsimp only
  split_ifs <;> (try simp only [min_def, max_def]) <;> (try split_ifs) <;> linarith

/-- The ramped pump speed never exceeds 100 when the command does not. -/
theorem pumpNewSpeed_le_100 (cfg : PumpConfig) (dt : ℚ) (s : PumpState)
    (hdt : 0 ≤ dt) (hrt : 0 < cfg.ramp_time_sec)
    (hcur : s.current_speed_percent ≤ 100) (hcmd : s.speed_cmd_percent ≤ 100) :
    pumpNewSpeed cfg dt s ≤ 100 := by
  have hrr : 0 ≤ 100 / cfg.ramp_time_sec * dt :=
    mul_nonneg (div_nonneg (by norm_num) hrt.le) hdt
  unfold pumpNewSpeed
  dsimp only
  split_ifs <;> (try simp only [min_def, max_def]) <;> (try split_ifs) <;> linarith

/-- Claim C8: for every pump with positive configured maxima and ramp
time and a nonnegative pre-tick speed state, `update` with dt ≥ 0 and any
linked back-pressure (a missing link reads 0) leaves pressure_bar within
[0, max_pressure_bar] and flow_lpm within [0, max_flow_lpm], and
pressure_bar equals clamp(set_pressure_bar x speed_factor - 0.5 x
back_pressure, 0, max_pressure_bar) with speed_factor the post-ramp speed
over 100. -/
theorem C8_pump_invariants (cfg : PumpConfig) (bp : Option ℚ) (dt : ℚ)
    (s : PumpState)
    (hdt : 0 ≤ dt) (hmp : 0 < cfg.max_pressure_bar) (hmf : 0 ≤ cfg.max_flow_lpm)
    (hrt : 0 < cfg.ramp_time_sec)
    (hcur : 0 ≤ s.current_speed_percent) (hcmd : 0 ≤ s.speed_cmd_percent) :
    0 ≤ (PumpSimulator.update cfg bp dt s).pressure_bar ∧
    (PumpSimulator.update cfg bp dt s).pressure_bar ≤ cfg.max_pressure_bar ∧
    0 ≤ (PumpSimulator.update cfg bp dt s).flow_lpm ∧
    (PumpSimulator.update cfg bp dt s).flow_lpm ≤ cfg.max_flow_lpm ∧
    (PumpSimulator.update cfg bp dt s).pressure_bar =
      max 0 (min cfg.max_pressure_bar
        (cfg.set_pressure_bar *
            ((PumpSimulator.update cfg bp dt s).current_speed_percent / 100) -
          (bp.getD 0) * (1/2))) := by
  have hN0 : 0 ≤ pumpNewSpeed cfg dt s := pumpNewSpeed_nonneg cfg dt s hdt hrt hcur hcmd
  unfold PumpSimulator.update
  dsimp only
  refine ⟨?_, ?_, ?_, ?_, rfl⟩
  · unfold pumpPressure
    exact le_max_left _ _
  · unfold pumpPressure
    exact max_le hmp.le (min_le_left _ _)
  · split_ifs with hpd
    · exact le_min hmf
        (mul_nonneg (mul_nonneg (div_nonneg hpd.le hmp.le) hmf)
          (div_nonneg hN0 (by norm_num)))
    · exact le_refl 0
  · split_ifs with hpd
    · exact min_le_left _ _
    · exact hmf

/-- Claim C8 witness: the pump invariants at the default pump enabled
against a 4 bar back-pressure. -/
theorem C8_pump_invariants_witness :
    (0:ℚ) ≤ 1/10 ∧ (0:ℚ) < 10 ∧
    0 ≤ (PumpSimulator.update defaultPumpConfig (some 4) (1/10)
      { initPumpState with enable_cmd := true }).pressure_bar ∧
    (PumpSimulator.update defaultPumpConfig (some 4) (1/10)
      { initPumpState with enable_cmd := true }).pressure_bar ≤
        defaultPumpConfig.max_pressure_bar ∧
    (PumpSimulator.update defaultPumpConfig (some 4) (1/10)
      { initPumpState with enable_cmd := true }).flow_lpm ≤
        defaultPumpConfig.max_flow_lpm := by
  have h := C8_pump_invariants defaultPumpConfig (some 4) (1/10)
    { initPumpState with enable_cmd := true }
    (by norm_num) (by norm_num [defaultPumpConfig]) (by norm_num [defaultPumpConfig])
    (by norm_num [defaultPumpConfig]) (by norm_num [initPumpState]) (by norm_num [initPumpState])
  exact ⟨by norm_num, by norm_num, h.1, h.2.1, h.2.2.2.1⟩


/-- The on/off valve keeps its position inside [0, 100]. -/
theorem valve_position_bounds (cfg : ValveConfig) (dt : ℚ) (s : ValveState)
    (hdt : 0 ≤ dt) (hop : 0 < cfg.open_speed_sec) (hcl : 0 < cfg.close_speed_sec)
    (h0 : 0 ≤ s.position_percent) (h1 : s.position_percent ≤ 100) :
    0 ≤ (ValveSimulator.update cfg dt s).position_percent ∧
    (ValveSimulator.update cfg dt s).position_percent ≤ 100 := by
  have hro : 0 ≤ 100 / cfg.open_speed_sec * dt :=
    mul_nonneg (div_nonneg (by norm_num) hop.le) hdt
  have hrc : 0 ≤ 100 / cfg.close_speed_sec * dt :=
    mul_nonneg (div_nonneg (by norm_num) hcl.le) hdt
  unfold ValveSimulator.update
  dsimp only
  split_ifs <;> (try dsimp only) <;> constructor <;>
    (try simp only [min_def, max_def]) <;> (try split_ifs) <;> linarith

/-- Reading reg-valve inputs clamps the setpoint into [0, 100] and
leaves the position untouched. -/
theorem regvalve_read_setpoint_bounds (openIn holdIn : Option Bool)
    (posVolt : Option ℚ) (s : RegValveState)
    (h0 : 0 ≤ s.setpoint_percent) (h1 : s.setpoint_percent ≤ 100) :
    0 ≤ (RegValveSimulator.read_inputs openIn holdIn posVolt s).setpoint_percent ∧
    (RegValveSimulator.read_inputs openIn holdIn posVolt s).setpoint_percent ≤ 100 ∧
    (RegValveSimulator.read_inputs openIn holdIn posVolt s).position_percent =
      s.position_percent := by
  unfold RegValveSimulator.read_inputs
  cases posVolt <;> cases openIn <;> cases holdIn <;> dsimp only <;>
    refine ⟨?_, ?_, rfl⟩ <;> (try simp only [min_def, max_def]) <;>
    (try split_ifs) <;> linarith

/-- The reg-valve update keeps the position inside [0, 100] when the
setpoint is, and leaves the setpoint untouched. -/
theorem regvalve_update_position_bounds (cfg : RegValveConfig) (dt : ℚ)
    (s : RegValveState)
    (hdt : 0 ≤ dt) (hop : 0 < cfg.open_speed_sec) (hcl : 0 < cfg.close_speed_sec)
    (hp0 : 0 ≤ s.position_percent) (hp1 : s.position_percent ≤ 100)
    (hs0 : 0 ≤ s.setpoint_percent) (hs1 : s.setpoint_percent ≤ 100) :
    0 ≤ (RegValveSimulator.update cfg dt s).position_percent ∧
    (RegValveSimulator.update cfg dt s).position_percent ≤ 100 ∧
    (RegValveSimulator.update cfg dt s).setpoint_percent = s.setpoint_percent := by
  have hro : 0 ≤ 100 / cfg.open_speed_sec * dt :=
    mul_nonneg (div_nonneg (by norm_num) hop.le) hdt
  have hrc : 0 ≤ 100 / cfg.close_speed_sec * dt :=
    mul_nonneg (div_nonneg (by norm_num) hcl.le) hdt
  unfold RegValveSimulator.update
  dsimp only
  split_ifs <;> (try dsimp only) <;> refine ⟨?_, ?_, rfl⟩ <;>
    (try simp only [min_def, max_def]) <;> (try split_ifs) <;> linarith

/-- Reading pump inputs keeps the speed command inside [0, 100] when
the ADC voltage lies in [0, 10] V, and leaves the ramped speed
untouched. -/
theorem pump_read_inputs_bounds (cfg : PumpConfig) (enableIn : Option Bool)
    (speedVolt : Option ℚ) (s : PumpState)
    (hv : ∀ v, speedVolt = some v → 0 ≤ v ∧ v ≤ 10)
    (h0 : 0 ≤ s.speed_cmd_percent) (h1 : s.speed_cmd_percent ≤ 100) :
    0 ≤ (PumpSimulator.read_inputs cfg enableIn speedVolt s).speed_cmd_percent ∧
    (PumpSimulator.read_inputs cfg enableIn speedVolt s).speed_cmd_percent ≤ 100 ∧
    (PumpSimulator.read_inputs cfg enableIn speedVolt s).current_speed_percent =
      s.current_speed_percent := by
  unfold PumpSimulator.read_inputs
  cases speedVolt with
  | none =>
    cases enableIn <;> dsimp only <;> split_ifs <;> exact ⟨h0, h1, rfl⟩
  | some v =>
    obtain ⟨hv0, hv1⟩ := hv v rfl
    cases enableIn <;> dsimp only <;> split_ifs <;>
      refine ⟨?_, ?_, rfl⟩ <;> linarith

/-- The pump update stores exactly the ramped speed. -/
theorem pump_update_current_speed (cfg : PumpConfig) (bp : Option ℚ) (dt : ℚ)
    (s : PumpState) :
    (PumpSimulator.update cfg bp dt s).current_speed_percent = pumpNewSpeed cfg dt s := rfl

/-- When the 100-percent reference height is at least the tank height,
the level percentage stays inside [0, 100]. -/
theorem level_update_percent_bounds (cfg : LevelConfig) (lf : Option ℚ)
    (dt : ℚ) (s : LevelState)
    (hth : 0 < cfg.tank_height_mm) (htv : 0 < cfg.tank_volume_m3)
    (hh : cfg.tank_height_mm ≤ cfg.height_100_percent) :
    0 ≤ (LevelSimulator.update cfg lf dt s).level_percent ∧
    (LevelSimulator.update cfg lf dt s).level_percent ≤ 100 := by
  have hthm : 0 < cfg.tank_height_mm / 1000 := div_pos hth (by norm_num)
  have hcross : 0 < cfg.cross_section_m2 := div_pos htv hthm
  have h100 : 0 < cfg.height_100_percent := lt_of_lt_of_le hth hh
  have key : ∀ V : ℚ, 0 ≤ V → V ≤ cfg.tank_volume_m3 →
      0 ≤ V / cfg.cross_section_m2 * 1000 / cfg.height_100_percent * 100 ∧
      V / cfg.cross_section_m2 * 1000 / cfg.height_100_percent * 100 ≤ 100 := by
    intro V hV0 hV1
    have hx0 : 0 ≤ V / cfg.cross_section_m2 * 1000 :=
      mul_nonneg (div_nonneg hV0 hcross.le) (by norm_num)
    have hx1 : V / cfg.cross_section_m2 * 1000 ≤ cfg.tank_height_mm := by
      rw [LevelConfig.cross_section_m2, div_div_eq_mul_div, div_mul_eq_mul_div,
        div_le_iff₀ htv]
      nlinarith [mul_nonneg (sub_nonneg.mpr hV1) hth.le]
    constructor
    · exact mul_nonneg (div_nonneg hx0 h100.le) (by norm_num)
    · have hq : V / cfg.cross_section_m2 * 1000 / cfg.height_100_percent ≤ 1 := by
        rw [div_le_one h100]
        exact le_trans hx1 hh
      nlinarith
  unfold LevelSimulator.update
  dsimp only
  exact key _ (le_max_left _ _) (max_le htv.le (min_le_left _ _))


/-- Claim C2 counterexample: `level_percent` is computed without any
clamp (level_simulator.py line 69).  With a 100-percent reference height
of 1000 mm in a 2000 mm tank, one tick that fills the tank drives
level_percent to 200, outside [0, 100]. -/
theorem C2_counterexample :
    (LevelSimulator.update badLevelConfig (some 60000000) 1 initLevelState).level_percent = 200 ∧
    100 < (LevelSimulator.update badLevelConfig (some 60000000) 1 initLevelState).level_percent := by
  have h : (LevelSimulator.update badLevelConfig (some 60000000) 1
      initLevelState).level_percent = 200 := by
    unfold LevelSimulator.update LevelConfig.cross_section_m2
    norm_num [initLevelState, badLevelConfig, min_def, max_def]
  exact ⟨h, by rw [h]; norm_num⟩

/-- Claim C2 (amended): after a tick, position_percent of an on/off or
regulating valve, setpoint_percent of a regulating valve, and
current_speed_percent of a pump (for ADC speed voltages within 0-10 V)
all remain in [0, 100], given positive configured travel and ramp times;
level_percent is not clamped — it remains in [0, 100] only when
height_100_percent is at least tank_height_mm, and can exceed 100
otherwise (see the counterexample). -/
theorem C2_percent_bounds :
    (∀ (cfg : ValveConfig) (dt : ℚ) (s : ValveState),
      0 ≤ dt → 0 < cfg.open_speed_sec → 0 < cfg.close_speed_sec →
      0 ≤ s.position_percent → s.position_percent ≤ 100 →
      0 ≤ (ValveSimulator.update cfg dt s).position_percent ∧
        (ValveSimulator.update cfg dt s).position_percent ≤ 100) ∧
    (∀ (cfg : RegValveConfig) (dt : ℚ) (s : RegValveState)
        (openIn holdIn : Option Bool) (posVolt : Option ℚ),
      0 ≤ dt → 0 < cfg.open_speed_sec → 0 < cfg.close_speed_sec →
      0 ≤ s.position_percent → s.position_percent ≤ 100 →
      0 ≤ s.setpoint_percent → s.setpoint_percent ≤ 100 →
      0 ≤ (RegValveSimulator.update cfg dt
            (RegValveSimulator.read_inputs openIn holdIn posVolt s)).position_percent ∧
      (RegValveSimulator.update cfg dt
        (RegValveSimulator.read_inputs openIn holdIn posVolt s)).position_percent ≤ 100 ∧
      0 ≤ (RegValveSimulator.update cfg dt
            (RegValveSimulator.read_inputs openIn holdIn posVolt s)).setpoint_percent ∧
      (RegValveSimulator.update cfg dt
        (RegValveSimulator.read_inputs openIn holdIn posVolt s)).setpoint_percent ≤ 100) ∧
    (∀ (cfg : PumpConfig) (bp : Option ℚ) (dt : ℚ) (s : PumpState)
        (enableIn : Option Bool) (speedVolt : Option ℚ),
      0 ≤ dt → 0 < cfg.ramp_time_sec →
      (∀ v, speedVolt = some v → 0 ≤ v ∧ v ≤ 10) →
      0 ≤ s.current_speed_percent → s.current_speed_percent ≤ 100 →
      0 ≤ s.speed_cmd_percent → s.speed_cmd_percent ≤ 100 →
      0 ≤ (PumpSimulator.update cfg bp dt
            (PumpSimulator.read_inputs cfg enableIn speedVolt s)).current_speed_percent ∧
      (PumpSimulator.update cfg bp dt
        (PumpSimulator.read_inputs cfg enableIn speedVolt s)).current_speed_percent ≤ 100) ∧
    (∀ (cfg : LevelConfig) (lf : Option ℚ) (dt : ℚ) (s : LevelState),
      0 < cfg.tank_height_mm → 0 < cfg.tank_volume_m3 →
      cfg.tank_height_mm ≤ cfg.height_100_percent →
      0 ≤ (LevelSimulator.update cfg lf dt s).level_percent ∧
        (LevelSimulator.update cfg lf dt s).level_percent ≤ 100) := by
  refine ⟨?_, ?_, ?_, ?_⟩
  · intro cfg dt s hdt hop hcl h0 h1
    exact valve_position_bounds cfg dt s hdt hop hcl h0 h1
  · intro cfg dt s openIn holdIn posVolt hdt hop hcl hp0 hp1 hs0 hs1
    obtain ⟨rs0, rs1, rpos⟩ :=
      regvalve_read_setpoint_bounds openIn holdIn posVolt s hs0 hs1
    obtain ⟨u0, u1, usp⟩ := regvalve_update_position_bounds cfg dt
      (RegValveSimulator.read_inputs openIn holdIn posVolt s) hdt hop hcl
      (by rw [rpos]; exact hp0) (by rw [rpos]; exact hp1) rs0 rs1
    exact ⟨u0, u1, by rw [usp]; exact rs0, by rw [usp]; exact rs1⟩
  · intro cfg bp dt s enableIn speedVolt hdt hrt hv hc0 hc1 hm0 hm1
    obtain ⟨m0, m1, mcur⟩ := pump_read_inputs_bounds cfg enableIn speedVolt s hv hm0 hm1
    rw [pump_update_current_speed]
    constructor
    · exact pumpNewSpeed_nonneg cfg dt _ hdt hrt (by rw [mcur]; exact hc0) m0
    · exact pumpNewSpeed_le_100 cfg dt _ hdt hrt (by rw [mcur]; exact hc1) m1
  · intro cfg lf dt s hth htv hh
    exact level_update_percent_bounds cfg lf dt s hth htv hh


/-- Claim C2 witness: the amended percent bounds at concrete valve,
reg-valve, pump and level ticks. -/
theorem C2_percent_bounds_witness :
    ((0:ℚ) ≤ 1/10 ∧ (0:ℚ) < 5 ∧
      0 ≤ (ValveSimulator.update demoValveConfig (1/10)
        { initValveState with open_cmd := true }).position_percent ∧
      (ValveSimulator.update demoValveConfig (1/10)
        { initValveState with open_cmd := true }).position_percent ≤ 100) ∧
    ((RegValveSimulator.update regValveDemo (1/10)
        (RegValveSimulator.read_inputs (some true) (some false) (some 5)
          initRegValveState)).position_percent ≤ 100) ∧
    ((PumpSimulator.update defaultPumpConfig (some 4) (1/10)
        (PumpSimulator.read_inputs defaultPumpConfig (some true) none
          initPumpState)).current_speed_percent ≤ 100) ∧
    (0 ≤ (LevelSimulator.update defaultLevelConfig (some 60) (1/10)
        initLevelState).level_percent ∧
      (LevelSimulator.update defaultLevelConfig (some 60) (1/10)
        initLevelState).level_percent ≤ 100) := by
  have hvalve := C2_percent_bounds.1 demoValveConfig (1/10)
    { initValveState with open_cmd := true }
    (by norm_num) (by norm_num [demoValveConfig]) (by norm_num [demoValveConfig])
    (by norm_num [initValveState]) (by norm_num [initValveState])
  have hreg := C2_percent_bounds.2.1 regValveDemo (1/10) initRegValveState
    (some true) (some false) (some 5)
    (by norm_num) (by norm_num [regValveDemo]) (by norm_num [regValveDemo])
    (by norm_num [initRegValveState]) (by norm_num [initRegValveState])
    (by norm_num [initRegValveState]) (by norm_num [initRegValveState])
  have hpump := C2_percent_bounds.2.2.1 defaultPumpConfig (some 4) (1/10)
    initPumpState (some true) none
    (by norm_num) (by norm_num [defaultPumpConfig])
    (fun v hv => by cases hv)
    (by norm_num [initPumpState]) (by norm_num [initPumpState])
    (by norm_num [initPumpState]) (by norm_num [initPumpState])
  have hlevel := C2_percent_bounds.2.2.2 defaultLevelConfig (some 60) (1/10)
    initLevelState
    (by norm_num [defaultLevelConfig]) (by norm_num [defaultLevelConfig])
    (by norm_num [defaultLevelConfig])
  exact ⟨⟨by norm_num, by norm_num, hvalve.1, hvalve.2⟩, hreg.2.1, hpump.2, hlevel⟩

end InstrumSim
